import Mathlib

/-!
Shallow embedding of the samcodes-chartboost FFI bridge
(src/project/common/ExternalInterface.cpp) and of the vendor error-code
enumerations (src/project/include/Chartboost.framework/Versions/A/Headers/
CHBAdDelegate.h), with theorems checking the natural-language specification
against the code.

The bridge functions are pure with respect to everything except the single
global callback handle, so each one is modelled as a function returning the
list of native-SDK calls it performs together with the value (if any) its C
signature delivers back to the host runtime.  The callback handle is modelled
as an explicit `Option Nat` state threaded through a step function over the
exported operations.
-/

namespace SamcodesChartboost

/-- A primitive runtime value crossing the FFI boundary
(strings, ints and bools, as allocated by alloc_string / alloc_int /
alloc_bool in ExternalInterface.cpp). -/
inductive RtVal
  | str (s : String)
  | int (n : Int)
  | bool (b : Bool)
  deriving DecidableEq, Repr

/-- An argument expression handed to a native-SDK entry point.
`plain v` is the value itself (for example `location.c_str()` or a C++ bool
passed directly); `viaAccessor acc v` is the value first run through the named
CFFI accessor, as in `val_bool(shouldHide)` on line 112 of
ExternalInterface.cpp. -/
inductive Arg
  | plain (v : RtVal)
  | viaAccessor (accessor : String) (v : RtVal)
  deriving DecidableEq, Repr

/-- One call into native code: the callee identifier as written in the C++
source, and its argument expressions. -/
structure NativeCall where
  callee : String
  args : List Arg
  deriving DecidableEq, Repr

/-- The effect of one bridge function: the native calls it performs, in order,
and the value its declared C return type delivers to the host runtime
(`none` for a void function, and also when a non-void function contains no
return statement). -/
abbrev Effect := List NativeCall × Option RtVal

/-- ExternalInterface.cpp lines 26-30:
`show_interstitial(location)` calls `showInterstitial(location.c_str())`
and returns nothing (static void, DEFINE_PRIME1v). -/
def show_interstitial (location : String) : Effect :=
  ([⟨"showInterstitial", [Arg.plain (RtVal.str location)]⟩], none)

/-- ExternalInterface.cpp lines 32-36:
`cache_interstitial(location)` calls `cacheInterstitial(location.c_str())`
and returns nothing. -/
def cache_interstitial (location : String) : Effect :=
  ([⟨"cacheInterstitial", [Arg.plain (RtVal.str location)]⟩], none)

/-- ExternalInterface.cpp lines 44-48:
`show_rewarded_video(location)` calls `showRewardedVideo(location.c_str())`
and returns nothing. -/
def show_rewarded_video (location : String) : Effect :=
  ([⟨"showRewardedVideo", [Arg.plain (RtVal.str location)]⟩], none)

/-- ExternalInterface.cpp lines 50-54:
`cache_rewarded_video(location)` calls `cacheRewardedVideo(location.c_str())`
and returns nothing. -/
def cache_rewarded_video (location : String) : Effect :=
  ([⟨"cacheRewardedVideo", [Arg.plain (RtVal.str location)]⟩], none)

/-- ExternalInterface.cpp lines 38-42: `has_interstitial` is declared
`static void` yet its body reads `return hasInterstitial(location.c_str());`.
The call to the native `hasInterstitial` is made, but the void return type
means no boolean value is delivered to the host runtime, hence result
`none`. -/
def has_interstitial (location : String) : Effect :=
  ([⟨"hasInterstitial", [Arg.plain (RtVal.str location)]⟩], none)

/-- ExternalInterface.cpp lines 56-60: the body of `has_rewarded_video` reads
`returnhasRewardedVideo(location.c_str());` — the keyword `return` is fused
with the callee name — so the single statement invokes the identifier
`returnhasRewardedVideo` (which the native SDK does not declare) and the
bool-declared function contains no return statement, hence result `none`. -/
def has_rewarded_video (location : String) : Effect :=
  ([⟨"returnhasRewardedVideo", [Arg.plain (RtVal.str location)]⟩], none)

/-- ExternalInterface.cpp lines 110-114: `set_status_bar_behavior(shouldHide)`
calls `setStatusBarBehavior(val_bool(shouldHide))`, applying the CFFI
value-to-bool accessor `val_bool` to the C++ bool before passing it on. -/
def set_status_bar_behavior (shouldHide : Bool) : Effect :=
  ([⟨"setStatusBarBehavior", [Arg.viaAccessor "val_bool" (RtVal.bool shouldHide)]⟩], none)

/-- The bridge's global mutable state: the AutoGCRoot pointer
`chartboostEventHandle` of ExternalInterface.cpp line 18, null (`none`)
initially, or `some h` where `h` identifies the rooted host handler. -/
abbrev BridgeState := Option Nat

/-- ExternalInterface.cpp lines 20-24: `set_listener(onEvent)` unconditionally
assigns `chartboostEventHandle = new AutoGCRoot(onEvent)`. -/
def set_listener (onEvent : Nat) : BridgeState :=
  some onEvent

/-- ExternalInterface.cpp lines 144-150: the host-runtime event record built by
`alloc_empty_object` followed by six `alloc_field` calls, as an ordered list of
(field name, value) pairs. -/
def chartboostEventRecord (type location uri : String) (reward_coins error : Int)
    (status : Bool) : List (String × RtVal) :=
  [("type", RtVal.str type),
   ("location", RtVal.str location),
   ("uri", RtVal.str uri),
   ("reward_coins", RtVal.int reward_coins),
   ("error", RtVal.int error),
   ("status", RtVal.bool status)]

/-- ExternalInterface.cpp lines 138-152: `sendChartboostEvent` returns early
when `chartboostEventHandle == 0`; otherwise it builds the event record and
performs `val_call1(chartboostEventHandle->get(), o)`.  The result is the
state after the call together with the list of host-handler invocations
performed, each pairing the handler with the record passed to it. -/
def sendChartboostEvent (s : BridgeState) (type location uri : String)
    (reward_coins error : Int) (status : Bool) :
    BridgeState × List (Nat × List (String × RtVal)) :=
  match s with
  | none => (none, [])
  | some h => (some h, [(h, chartboostEventRecord type location uri reward_coins error status)])

/-- The exported operations of the bridge (every function wrapped by a
DEFINE_PRIME macro in ExternalInterface.cpp, lines 20-126, plus the extern "C"
callback entry `sendChartboostEvent`, lines 138-152). -/
inductive BridgeOp
  | set_listener (onEvent : Nat)
  | show_interstitial (location : String)
  | cache_interstitial (location : String)
  | has_interstitial (location : String)
  | show_rewarded_video (location : String)
  | cache_rewarded_video (location : String)
  | has_rewarded_video (location : String)
  | is_any_view_visible
  | set_custom_id (id : String)
  | get_custom_id
  | set_should_request_interstitials_in_first_session (shouldRequest : Bool)
  | get_auto_cache_ads
  | set_auto_cache_ads (autoCache : Bool)
  | set_should_prefetch_video_content (shouldPrefetch : Bool)
  | get_sdk_version
  | set_status_bar_behavior (shouldHide : Bool)
  | set_muted (mute : Bool)
  | restrict_data_collection (shouldRestrict : Bool)
  | sendChartboostEvent (type location uri : String) (reward_coins error : Int) (status : Bool)
  deriving DecidableEq, Repr

/-- Effect of each exported operation on the global `chartboostEventHandle`.
Only the body of `set_listener` (line 22) assigns the variable; every other
function body in ExternalInterface.cpp never mentions it except for the null
test on line 140 of `sendChartboostEvent`, which reads but does not write
it. -/
def stepState : BridgeOp → BridgeState → BridgeState
  | .set_listener onEvent, _ => set_listener onEvent
  | .show_interstitial _, s => s
  | .cache_interstitial _, s => s
  | .has_interstitial _, s => s
  | .show_rewarded_video _, s => s
  | .cache_rewarded_video _, s => s
  | .has_rewarded_video _, s => s
  | .is_any_view_visible, s => s
  | .set_custom_id _, s => s
  | .get_custom_id, s => s
  | .set_should_request_interstitials_in_first_session _, s => s
  | .get_auto_cache_ads, s => s
  | .set_auto_cache_ads _, s => s
  | .set_should_prefetch_video_content _, s => s
  | .get_sdk_version, s => s
  | .set_status_bar_behavior _, s => s
  | .set_muted _, s => s
  | .restrict_data_collection _, s => s
  | .sendChartboostEvent t l u rc e st, s => (sendChartboostEvent s t l u rc e st).1

/-- Spec-side shape of a void pass-through wrapper: one call to the named
native entry point with the location string as only argument, and no value
returned to the host (from the spec sentence describing every function as a
one-line pass-through). -/
def passThroughSpec (callee : String) (location : String) : Effect :=
  ([⟨callee, [Arg.plain (RtVal.str location)]⟩], none)

/-- Spec-side shape claimed for `has_interstitial` by C3: a call to
`hasInterstitial(location.c_str())` whose boolean result (whatever the native
SDK returns) is delivered to the host runtime. -/
def has_interstitial_claimed (result : Bool) (location : String) : Effect :=
  ([⟨"hasInterstitial", [Arg.plain (RtVal.str location)]⟩], some (RtVal.bool result))

/-- Spec-side shape claimed for `has_rewarded_video` by C2: a call to
`hasRewardedVideo(location.c_str())` whose boolean result is returned. -/
def has_rewarded_video_claimed (result : Bool) (location : String) : Effect :=
  ([⟨"hasRewardedVideo", [Arg.plain (RtVal.str location)]⟩], some (RtVal.bool result))

/-- Spec-side shape claimed for `set_status_bar_behavior` by C7: the boolean
`shouldHide` itself passed as the argument to `setStatusBarBehavior`. -/
def set_status_bar_behavior_claimed (shouldHide : Bool) : Effect :=
  ([⟨"setStatusBarBehavior", [Arg.plain (RtVal.bool shouldHide)]⟩], none)

/-- CHBAdDelegate.h lines 60-67: error codes for failed cache operations. -/
inductive CHBCacheErrorCode
  | Internal
  | InternetUnavailable
  | NetworkFailure
  | NoAdFound
  | SessionNotStarted
  | AssetDownloadFailure
  deriving DecidableEq, Repr, Fintype

/-- Numeric values assigned in CHBAdDelegate.h lines 61-66. -/
def CHBCacheErrorCode.val : CHBCacheErrorCode → Nat
  | .Internal => 0
  | .InternetUnavailable => 1
  | .NetworkFailure => 5
  | .NoAdFound => 6
  | .SessionNotStarted => 7
  | .AssetDownloadFailure => 16

/-- CHBAdDelegate.h lines 83-90: error codes for failed show operations. -/
inductive CHBShowErrorCode
  | Internal
  | SessionNotStarted
  | AdAlreadyVisible
  | InternetUnavailable
  | PresentationFailure
  | NoCachedAd
  deriving DecidableEq, Repr, Fintype

/-- Numeric values assigned in CHBAdDelegate.h lines 84-89. -/
def CHBShowErrorCode.val : CHBShowErrorCode → Nat
  | .Internal => 0
  | .SessionNotStarted => 7
  | .AdAlreadyVisible => 8
  | .InternetUnavailable => 25
  | .PresentationFailure => 33
  | .NoCachedAd => 34

/-- CHBAdDelegate.h lines 105-110: error codes for failed click operations. -/
inductive CHBClickErrorCode
  | UriInvalid
  | UriUnrecognized
  | ConfirmationGateFailure
  | Internal
  deriving DecidableEq, Repr, Fintype

/-- Numeric values assigned in CHBAdDelegate.h lines 106-109. -/
def CHBClickErrorCode.val : CHBClickErrorCode → Nat
  | .UriInvalid => 0
  | .UriUnrecognized => 1
  | .ConfirmationGateFailure => 2
  | .Internal => 3

/-- C1: while a handler is registered, sendChartboostEvent constructs the
host-runtime record with exactly the six fields type, location, uri,
reward_coins, error and status bound to the corresponding arguments (strings,
two ints, a bool) and invokes the registered handler exactly once with that
record, leaving the state unchanged. -/
theorem sendChartboostEvent_with_listener (h : Nat) (type location uri : String)
    (reward_coins error : Int) (status : Bool) :
    sendChartboostEvent (some h) type location uri reward_coins error status =
      (some h,
       [(h, [("type", RtVal.str type),
             ("location", RtVal.str location),
             ("uri", RtVal.str uri),
             ("reward_coins", RtVal.int reward_coins),
             ("error", RtVal.int error),
             ("status", RtVal.bool status)])]) := rfl

/-- C2: evaluating the code at location "default": has_rewarded_video invokes
the identifier returnhasRewardedVideo (the native hasRewardedVideo is never
called), delivers no boolean to the host, and its effect differs from the
claimed pass-through whatever boolean the native SDK would have returned. -/
theorem has_rewarded_video_code_bug :
    (has_rewarded_video "default").1.map NativeCall.callee = ["returnhasRewardedVideo"] ∧
    (has_rewarded_video "default").2 = none ∧
    ∀ result : Bool,
      has_rewarded_video "default" ≠ has_rewarded_video_claimed result "default" := by
  refine ⟨rfl, rfl, ?_⟩
  decide

/-- C3: evaluating the code at location "default": has_interstitial does call
the native hasInterstitial, but its void C signature delivers no value to the
host runtime, so its effect differs from the claimed value-returning
pass-through whatever boolean the native SDK would have returned. -/
theorem has_interstitial_code_bug :
    (has_interstitial "default").1.map NativeCall.callee = ["hasInterstitial"] ∧
    (has_interstitial "default").2 = none ∧
    ∀ result : Bool,
      has_interstitial "default" ≠ has_interstitial_claimed result "default" := by
  refine ⟨rfl, rfl, ?_⟩
  decide

/-- C4: every exported operation either leaves the global callback handle
unchanged or is set_listener, which sets it to the new handler; so only
set_listener ever modifies the bridge state. -/
theorem bridge_state_only_set_listener_writes (op : BridgeOp) (s : BridgeState) :
    stepState op s = s ∨
      ∃ h, op = BridgeOp.set_listener h ∧ stepState op s = some h := by
  cases op <;>
    first
      | exact Or.inl rfl
      | (cases s <;> exact Or.inl rfl)
      | exact Or.inr ⟨_, rfl, rfl⟩

/-- C5: show_interstitial, cache_interstitial, show_rewarded_video and
cache_rewarded_video each perform exactly one call to the correspondingly
named native entry point with the location string as only argument and
return nothing. -/
theorem ad_calls_pass_through (location : String) :
    show_interstitial location = passThroughSpec "showInterstitial" location ∧
    cache_interstitial location = passThroughSpec "cacheInterstitial" location ∧
    show_rewarded_video location = passThroughSpec "showRewardedVideo" location ∧
    cache_rewarded_video location = passThroughSpec "cacheRewardedVideo" location :=
  ⟨rfl, rfl, rfl, rfl⟩

/-- C6: every event record that sendChartboostEvent delivers to the host
handler carries the native error argument unchanged in its "error" field. -/
theorem error_forwarded_unchanged (s : BridgeState) (type location uri : String)
    (reward_coins error : Int) (status : Bool)
    (inv : Nat × List (String × RtVal))
    (hmem : inv ∈ (sendChartboostEvent s type location uri reward_coins error status).2) :
    inv.2.lookup "error" = some (RtVal.int error) := by
  cases s with
  | none => simp [sendChartboostEvent] at hmem
  | some h =>
    simp only [sendChartboostEvent, List.mem_singleton] at hmem
    subst hmem
    rfl

/-- C6 witness: the theorem applied at a concrete dropped-into-the-handler
event with error code 25. -/
theorem error_forwarded_unchanged_witness :
    (((7 : Nat), chartboostEventRecord "didFailToLoadInterstitial" "default" "" 0 25 false) :
        Nat × List (String × RtVal)).2.lookup "error" = some (RtVal.int 25) :=
  error_forwarded_unchanged (some 7) "didFailToLoadInterstitial" "default" "" 0 25 false
    (7, chartboostEventRecord "didFailToLoadInterstitial" "default" "" 0 25 false)
    (List.mem_singleton.mpr rfl)

/-- C7: evaluating the code at shouldHide = true: set_status_bar_behavior
passes val_bool(shouldHide), not the boolean shouldHide itself, to
setStatusBarBehavior, so its effect differs from the claimed direct
pass-through. -/
theorem set_status_bar_behavior_code_bug :
    (set_status_bar_behavior true).1.map NativeCall.args =
      [[Arg.viaAccessor "val_bool" (RtVal.bool true)]] ∧
    set_status_bar_behavior true ≠ set_status_bar_behavior_claimed true := by
  refine ⟨rfl, ?_⟩
  decide

/-- C8: the three vendor error enumerations declare exactly the listed codes
(every inhabitant is one of those named below) with exactly the claimed
numeric values. -/
theorem vendor_error_code_values :
    (∀ c : CHBCacheErrorCode,
      c ∈ [CHBCacheErrorCode.Internal, .InternetUnavailable, .NetworkFailure,
           .NoAdFound, .SessionNotStarted, .AssetDownloadFailure]) ∧
    CHBCacheErrorCode.val .Internal = 0 ∧
    CHBCacheErrorCode.val .InternetUnavailable = 1 ∧
    CHBCacheErrorCode.val .NetworkFailure = 5 ∧
    CHBCacheErrorCode.val .NoAdFound = 6 ∧
    CHBCacheErrorCode.val .SessionNotStarted = 7 ∧
    CHBCacheErrorCode.val .AssetDownloadFailure = 16 ∧
    (∀ c : CHBShowErrorCode,
      c ∈ [CHBShowErrorCode.Internal, .SessionNotStarted, .AdAlreadyVisible,
           .InternetUnavailable, .PresentationFailure, .NoCachedAd]) ∧
    CHBShowErrorCode.val .Internal = 0 ∧
    CHBShowErrorCode.val .SessionNotStarted = 7 ∧
    CHBShowErrorCode.val .AdAlreadyVisible = 8 ∧
    CHBShowErrorCode.val .InternetUnavailable = 25 ∧
    CHBShowErrorCode.val .PresentationFailure = 33 ∧
    CHBShowErrorCode.val .NoCachedAd = 34 ∧
    (∀ c : CHBClickErrorCode,
      c ∈ [CHBClickErrorCode.UriInvalid, .UriUnrecognized, .ConfirmationGateFailure,
           .Internal]) ∧
    CHBClickErrorCode.val .UriInvalid = 0 ∧
    CHBClickErrorCode.val .UriUnrecognized = 1 ∧
    CHBClickErrorCode.val .ConfirmationGateFailure = 2 ∧
    CHBClickErrorCode.val .Internal = 3 := by
  decide

/-- C9: with no handler registered, sendChartboostEvent returns immediately:
no record is built, no handler is invoked, and the state stays none. -/
theorem sendChartboostEvent_no_listener (type location uri : String)
    (reward_coins error : Int) (status : Bool) :
    sendChartboostEvent none type location uri reward_coins error status = (none, []) := rfl

/-- C10: within each vendor error enumeration the numeric values are pairwise
distinct (the value map over the full, exhaustive constructor list has no
duplicates), while across enumerations the same value names different codes:
7 is SessionNotStarted for both cache and show, and 0 is Internal for cache
and show but UriInvalid for click (click Internal being 3, not 0). -/
theorem error_code_values_distinct_per_enum :
    ([CHBCacheErrorCode.Internal, .InternetUnavailable, .NetworkFailure, .NoAdFound,
      .SessionNotStarted, .AssetDownloadFailure].map CHBCacheErrorCode.val).Nodup ∧
    (∀ c : CHBCacheErrorCode,
      c ∈ [CHBCacheErrorCode.Internal, .InternetUnavailable, .NetworkFailure,
           .NoAdFound, .SessionNotStarted, .AssetDownloadFailure]) ∧
    ([CHBShowErrorCode.Internal, .SessionNotStarted, .AdAlreadyVisible,
      .InternetUnavailable, .PresentationFailure, .NoCachedAd].map CHBShowErrorCode.val).Nodup ∧
    (∀ c : CHBShowErrorCode,
      c ∈ [CHBShowErrorCode.Internal, .SessionNotStarted, .AdAlreadyVisible,
           .InternetUnavailable, .PresentationFailure, .NoCachedAd]) ∧
    ([CHBClickErrorCode.UriInvalid, .UriUnrecognized, .ConfirmationGateFailure,
      .Internal].map CHBClickErrorCode.val).Nodup ∧
    (∀ c : CHBClickErrorCode,
      c ∈ [CHBClickErrorCode.UriInvalid, .UriUnrecognized, .ConfirmationGateFailure,
           .Internal]) ∧
    CHBCacheErrorCode.val .SessionNotStarted = 7 ∧
    CHBShowErrorCode.val .SessionNotStarted = 7 ∧
    CHBCacheErrorCode.val .Internal = 0 ∧
    CHBShowErrorCode.val .Internal = 0 ∧
    CHBClickErrorCode.val .UriInvalid = 0 ∧
    CHBClickErrorCode.val .Internal ≠ 0 := by
  decide

end SamcodesChartboost
